import Mathlib

/-!
DJL PyTorch native bindings: optimizer updates and `torchFromBlob`

A shallow embedding of

* `ai_djl_pytorch_jni_PyTorchLibrary_training.cc` (`sgdUpdate`, `adamUpdate`), and
* `ai_djl_pytorch_jni_PyTorchLibrary_torch_creation.cc` (`torchFromBlob`).

Modelling conventions.

* A tensor is a function from an index type `ι` (the positions of the common shape of the
  operands) to scalars; the in-place kernels of the tensor library (`mul_`, `add_`, `clamp_`,
  ...) are the pointwise functions their documentation gives, and an in-place call is the
  replacement of the buffer by the kernel's result.
* Scalars live in a linear ordered field `α` (`ℚ` is the executable instance): rounding,
  infinities and NaN of IEEE arithmetic are outside the model. The square root kernel is a
  parameter `sqrt : α → α`.
* The handles `jweight`, `jgrad`, `jstate`, `jmean`, `jvariance` and the gradient accumulator
  `weight.grad()` denote pairwise distinct storages.
* An exception does not undo the in-place writes made before it: every update returns the
  buffers it leaves behind together with the error raised, if any.
-/

namespace DJL

/-- A tensor: one scalar per position of the shape. -/
abbrev Tensor (ι α : Type) := ι → α

/-- Failures of the native layer. -/
inductive NativeError where
  /-- a null handle was dereferenced (`GetPointerFromJHandle` on `null`) -/
  | InvalidHandle
  /-- an in-place kernel was called on an undefined tensor -/
  | UndefinedTensor
  /-- an argument was rejected -/
  | InvalidArgument
  deriving DecidableEq

/-- The buffers left behind by a call and the error it raised, if any. -/
structure Outcome (σ : Type) where
  buffers : σ
  raised : Option NativeError

section Kernels

variable {ι α : Type} [LinearOrderedField α]

/-- Kernels `Tensor::mul_(Scalar)` and `Tensor::mul(Scalar)`: multiply every element by `s`. -/
def Tensor.mul (t : Tensor ι α) (s : α) : Tensor ι α := fun i => t i * s

/-- Kernel `Tensor::clamp_(min, max)`: every element `x` becomes `min(max(x, lo), hi)`. -/
def Tensor.clamp (t : Tensor ι α) (lo hi : α) : Tensor ι α := fun i => min (max (t i) lo) hi

/-- Kernel `Tensor::add_(other, alpha)`: `self + alpha * other`; `alpha` is `1` when omitted. -/
def Tensor.add (t other : Tensor ι α) (alpha : α) : Tensor ι α := fun i => t i + alpha * other i

/-- Kernel `Tensor::add(Scalar)`: add `s` to every element. -/
def Tensor.addScalar (t : Tensor ι α) (s : α) : Tensor ι α := fun i => t i + s

/-- Kernel `Tensor::sub_(other, alpha)`: `self - alpha * other`; `alpha` is `1` when omitted. -/
def Tensor.sub (t other : Tensor ι α) (alpha : α) : Tensor ι α := fun i => t i - alpha * other i

/-- Kernel `Tensor::addcmul_(t1, t2, value)`: `self + value * t1 * t2`. -/
def Tensor.addcmul (t t1 t2 : Tensor ι α) (value : α) : Tensor ι α :=
  fun i => t i + value * t1 i * t2 i

/-- Kernel `Tensor::div(other)`: element-wise quotient. -/
def Tensor.div (t other : Tensor ι α) : Tensor ι α := fun i => t i / other i

/-- Kernel `Tensor::sqrt()`: element-wise square root, for the square root kernel `sqrt`. -/
def Tensor.sqrt (sqrt : α → α) (t : Tensor ι α) : Tensor ι α := fun i => sqrt (t i)

/-- Kernel `Tensor::zero_()`: every element becomes `0`. -/
def Tensor.zero (_t : Tensor ι α) : Tensor ι α := fun _ => 0

/-- Lines 28-30 and 52-54 of the training file:
`if (rescale_grad != 1.0) { grad_ptr->mul_(rescale_grad); }`. -/
def rescaleGrad (rescale_grad : α) (grad : Tensor ι α) : Tensor ι α :=
  if rescale_grad ≠ 1 then grad.mul rescale_grad else grad

/-- Lines 31-35 and 56-60 of the training file:
`if (clip_grad >= 0.0) { clip_grad = abs(clip_grad); grad_ptr->clamp_(-clip_grad, clip_grad); }`,
with `abs` the absolute value on scalars. -/
def clipGrad (clip_grad : α) (grad : Tensor ι α) : Tensor ι α :=
  if clip_grad ≥ 0 then
    let clip_grad := |clip_grad|
    grad.clamp (-clip_grad) clip_grad
  else grad

/-- Lines 41-42 and 71-72 of the training file:
`weight_ptr->grad().detach_(); weight_ptr->grad().zero_();` on the accumulator of the weight,
which is `none` when `weight.grad()` is an undefined tensor. `detach_` changes no element. -/
def resetGrad (weightGrad : Option (Tensor ι α)) : Option (Tensor ι α) × Option NativeError :=
  match weightGrad with
  | none => (none, some NativeError.UndefinedTensor)
  | some g => (some g.zero, none)

end Kernels

/-- The tensors `sgdUpdate` works on: the weight, the gradient, the momentum state behind the
nullable handle `jstate`, and the gradient accumulator `weight.grad()`. -/
structure SgdBuffers (ι α : Type) where
  weight : Tensor ι α
  grad : Tensor ι α
  state : Option (Tensor ι α)
  weightGrad : Option (Tensor ι α)

/-- The tensors `adamUpdate` works on. -/
structure AdamBuffers (ι α : Type) where
  weight : Tensor ι α
  grad : Tensor ι α
  mean : Tensor ι α
  variance : Tensor ι α
  weightGrad : Option (Tensor ι α)

section Training

variable {ι α : Type} [LinearOrderedField α]

/-- Embedding of `Java_ai_djl_pytorch_jni_PyTorchLibrary_sgdUpdate` (training file, lines
45-73). The state handle is resolved only on the `momentum != 0` path, where a null handle
raises `InvalidHandle` after the gradient buffer has been rewritten. -/
def sgdUpdate (b : SgdBuffers ι α)
    (learning_rate weight_decay rescale_grad clip_grad momentum : α) :
    Outcome (SgdBuffers ι α) :=
  let grad := rescaleGrad rescale_grad b.grad
  let grad := clipGrad clip_grad grad
  let grad := (grad.add b.weight weight_decay).mul learning_rate
  if momentum = 0 then
    let weight := b.weight.sub grad 1
    let r := resetGrad b.weightGrad
    ⟨{ weight := weight, grad := grad, state := b.state, weightGrad := r.1 }, r.2⟩
  else
    match b.state with
    | none =>
      ⟨{ weight := b.weight, grad := grad, state := none, weightGrad := b.weightGrad },
        some NativeError.InvalidHandle⟩
    | some state =>
      let state := (state.mul momentum).add grad 1
      let weight := b.weight.sub state 1
      let r := resetGrad b.weightGrad
      ⟨{ weight := weight, grad := grad, state := some state, weightGrad := r.1 }, r.2⟩

/-- Embedding of `Java_ai_djl_pytorch_jni_PyTorchLibrary_adamUpdate` (training file, lines
19-43), for the square root kernel `sqrt`. -/
def adamUpdate (sqrt : α → α) (b : AdamBuffers ι α)
    (learning_rate weight_decay rescale_grad clip_grad beta1 beta2 eps : α) :
    Outcome (AdamBuffers ι α) :=
  let grad := rescaleGrad rescale_grad b.grad
  let grad := clipGrad clip_grad grad
  let grad := grad.add b.weight weight_decay
  let mean := (b.mean.mul beta1).add grad (1 - beta1)
  let variance := (b.variance.mul beta2).addcmul grad grad (1 - beta2)
  let weight :=
    b.weight.sub ((mean.mul learning_rate).div ((variance.sqrt sqrt).addScalar eps)) 1
  let r := resetGrad b.weightGrad
  ⟨{ weight := weight, grad := grad, mean := mean, variance := variance, weightGrad := r.1 },
    r.2⟩

/-- Spec-side definition, following the words of the update rules: the gradient they work
with is `rescale_grad * grad`, clamped to `[-|clip_grad|, |clip_grad|]` when `clip_grad >= 0`
and left unclamped when `clip_grad < 0`. -/
def clippedGrad (rescale_grad clip_grad : α) (grad : Tensor ι α) : Tensor ι α :=
  fun i =>
    if 0 ≤ clip_grad then min (max (rescale_grad * grad i) (-|clip_grad|)) |clip_grad|
    else rescale_grad * grad i

end Training

/-! Section: Tensor creation from an external buffer -/

/-- Element types of the tensor library (`torch::ScalarType`). -/
inductive ScalarType where
  | Byte | Char | Short | Int | Long | Half | Float | Double | Bool
  deriving DecidableEq

/-- Storage layouts (`torch::kStrided`, `torch::kSparse`). -/
inductive Layout where
  | Strided | Sparse
  deriving DecidableEq

/-- A device (`torch::Device`): whether it is the CPU, and its ordinal. -/
structure Device where
  is_cpu : Bool
  index : Int
  deriving DecidableEq

/-- The options `torchFromBlob` sets (`torch::TensorOptions`); `dtype` is `none` while no
element type has been set. -/
structure TensorOptions where
  dtype : Option ScalarType
  layout : Layout
  requires_grad : Bool
  deriving DecidableEq

/-- A direct `java.nio` buffer as the caller hands it over: the address
`GetDirectBufferAddress` returns, its capacity and the element type it is declared with. -/
structure DirectBuffer where
  address : Nat
  capacity : Nat
  elementType : ScalarType
  deriving DecidableEq

/-- Where the elements of a tensor live: in caller memory at an address, or in storage the
tensor library allocated. -/
inductive Storage where
  | external (address : Nat)
  | owned
  deriving DecidableEq

/-- The metadata of a created tensor. -/
structure TensorInfo where
  storage : Storage
  sizes : List Int
  dtype : ScalarType
  layout : Layout
  device : Device
  requires_grad : Bool
  deriving DecidableEq

/-- What `torchFromBlob` takes from outside its source file: the helpers
`utils::GetScalarTypeFromDType` and `utils::GetDeviceFromJDevice` of
`djl_pytorch_jni_utils.h`, and the default element type of the tensor library, which
`TensorOptions` falls back to when no element type is set. -/
structure Env where
  GetScalarTypeFromDType : Int → ScalarType
  GetDeviceFromJDevice : List Int → Device
  default_dtype : ScalarType

/-- The CPU device. -/
def Device.cpu : Device := ⟨true, 0⟩

/-- Library call `torch::from_blob(data, sizes, options)`: a CPU tensor over the memory at `data`, with
the sizes given, the element type of the options or the default one when none is set. -/
def from_blob (default_dtype : ScalarType) (data : Nat) (sizes : List Int)
    (options : TensorOptions) : TensorInfo :=
  { storage := Storage.external data
    sizes := sizes
    dtype := options.dtype.getD default_dtype
    layout := options.layout
    device := Device.cpu
    requires_grad := options.requires_grad }

/-- Library call `Tensor::to(device)` on a CPU tensor for another device: a copy on that device. -/
def TensorInfo.to (t : TensorInfo) (device : Device) : TensorInfo :=
  { t with storage := Storage.owned, device := device }

/-- Embedding of `Java_ai_djl_pytorch_jni_PyTorchLibrary_torchFromBlob` (creation file, lines
18-46); `GetVecFromJLongArray` copies the shape array as it is. The source has no failing path:
the result is always a tensor. -/
def torchFromBlob (env : Env) (jbuffer : DirectBuffer) (jshape : List Int)
    (jdtype jlayout : Int) (jdevice : List Int) (jrequired_grad : Bool) :
    Except NativeError TensorInfo :=
  let shape_vec := jshape
  let device := env.GetDeviceFromJDevice jdevice
  let options : TensorOptions :=
    { dtype := none
      layout := if jlayout = 0 then Layout.Strided else Layout.Sparse
      requires_grad := jrequired_grad }
  let options := if jdtype ≠ 8 then
      { options with dtype := some (env.GetScalarTypeFromDType jdtype) }
    else options
  let data := from_blob env.default_dtype jbuffer.address shape_vec options
  let data := if !device.is_cpu then data.to device else data
  Except.ok data

/-- The number of elements a shape implies: the product of its sizes. -/
def numel (shape : List Int) : Int := shape.prod

/-! Section: Concrete inputs -/

/-- A two-element SGD input over `ℚ` with a momentum state and a gradient accumulator. -/
def sgdSample : SgdBuffers (Fin 2) ℚ :=
  ⟨![1, 2], ![3, -4], some ![1, 1], some ![5, 5]⟩

/-- A two-element Adam input over `ℚ`. -/
def adamSample : AdamBuffers (Fin 2) ℚ :=
  ⟨![1, 2], ![3, -4], ![1, 1], ![4, 9], some ![5, 5]⟩

/-- An environment whose default element type is `Float`. -/
def sampleEnv : Env :=
  { GetScalarTypeFromDType := fun code => if code = 4 then ScalarType.Int else ScalarType.Float
    GetDeviceFromJDevice := fun _ => Device.cpu
    default_dtype := ScalarType.Float }

/-- A direct buffer of capacity `1` declared with element type `Int`. -/
def sampleBuffer : DirectBuffer := ⟨4096, 1, ScalarType.Int⟩

/-! Section: Theorems -/

section TrainingTheorems

variable {ι α : Type} [LinearOrderedField α]

/-- The rescaling and clipping steps of the code compute the gradient the update rules are
stated with. -/
theorem clipGrad_rescaleGrad (rescale_grad clip_grad : α) (grad : Tensor ι α) :
    clipGrad clip_grad (rescaleGrad rescale_grad grad)
      = clippedGrad rescale_grad clip_grad grad := by
  funext i
  by_cases hr : rescale_grad = 1 <;> by_cases hc : 0 ≤ clip_grad <;>
    simp [rescaleGrad, clipGrad, clippedGrad, hr, hc, Tensor.mul, Tensor.clamp, mul_comm]

/-- The gradient buffer `sgdUpdate` leaves behind, on every path. -/
theorem sgdUpdate_grad (b : SgdBuffers ι α)
    (learning_rate weight_decay rescale_grad clip_grad momentum : α) :
    (sgdUpdate b learning_rate weight_decay rescale_grad clip_grad momentum).buffers.grad
      = ((clipGrad clip_grad (rescaleGrad rescale_grad b.grad)).add b.weight
          weight_decay).mul learning_rate := by
  unfold sgdUpdate
  by_cases hm : momentum = 0
  · simp [hm]
  · cases hs : b.state <;> simp [hm]

/-- Claim C1: with `momentum == 0`, `weight_decay == 0`, `rescale_grad == 1` and
`clip_grad < 0`, `sgdUpdate` leaves every element of the weight equal to
`weight - learning_rate * grad`, for the weight and gradient before the call. -/
theorem sgdUpdate_plain_step (weight grad : Tensor ι α)
    (state weightGrad : Option (Tensor ι α)) (learning_rate clip_grad : α)
    (hclip : clip_grad < 0) (i : ι) :
    (sgdUpdate ⟨weight, grad, state, weightGrad⟩ learning_rate 0 1 clip_grad 0).buffers.weight i
      = weight i - learning_rate * grad i := by
  simp [sgdUpdate, rescaleGrad, clipGrad, not_le.mpr hclip, Tensor.add, Tensor.mul, Tensor.sub]
  ring

/-- Witness of `sgdUpdate_plain_step`: weight `1`, gradient `3`, learning rate `1/2`,
clipping disabled by `clip_grad = -1`. -/
theorem sgdUpdate_plain_step_witness :
    (-1 : ℚ) < 0 ∧
    (sgdUpdate (⟨![1, 2], ![3, -4], none, none⟩ : SgdBuffers (Fin 2) ℚ)
        (1 / 2) 0 1 (-1) 0).buffers.weight 0 = 1 - 1 / 2 * 3 :=
  ⟨by norm_num, by
    simpa using sgdUpdate_plain_step (![1, 2] : Fin 2 → ℚ) ![3, -4] none none (1 / 2) (-1)
      (by norm_num) 0⟩

/-- Claim C2: with `momentum != 0` and a momentum state present, `sgdUpdate` leaves
`state' = state * momentum + g` and `weight' = weight - state'` element by element, where
`g = (c + weight_decay * weight) * learning_rate` and `c` is the rescaled gradient, clamped
when `clip_grad >= 0`; `weight`, `grad`, `state` are the values before the call. -/
theorem sgdUpdate_momentum_step (weight grad state : Tensor ι α)
    (weightGrad : Option (Tensor ι α))
    (learning_rate weight_decay rescale_grad clip_grad momentum : α) (hm : momentum ≠ 0) :
    let r := (sgdUpdate ⟨weight, grad, some state, weightGrad⟩
      learning_rate weight_decay rescale_grad clip_grad momentum).buffers
    let g : Tensor ι α := fun i =>
      (clippedGrad rescale_grad clip_grad grad i + weight_decay * weight i) * learning_rate
    r.state = some (fun i => state i * momentum + g i) ∧
    ∀ i, r.weight i = weight i - (state i * momentum + g i) := by
  refine ⟨?_, fun i => ?_⟩
  · simp only [sgdUpdate, if_neg hm, clipGrad_rescaleGrad]
    congr 1
    funext i
    simp [Tensor.add, Tensor.mul]
  · simp [sgdUpdate, hm, clipGrad_rescaleGrad, Tensor.add, Tensor.mul, Tensor.sub]

/-- Witness of `sgdUpdate_momentum_step`: weight `1`, gradient `3`, state `1`, with
`learning_rate = 1/2`, `weight_decay = 1`, `rescale_grad = 2`, `clip_grad = 1` and
`momentum = 1/2`: the clamped gradient is `1`, `g = 1`, `state' = 3/2`, `weight' = -1/2`. -/
theorem sgdUpdate_momentum_step_witness :
    (1 / 2 : ℚ) ≠ 0 ∧
    (sgdUpdate (⟨![1, 2], ![3, -4], some ![1, 1], none⟩ : SgdBuffers (Fin 2) ℚ)
        (1 / 2) 1 2 1 (1 / 2)).buffers.weight 0 = -1 / 2 :=
  ⟨by norm_num, by
    have h := (sgdUpdate_momentum_step (![1, 2] : Fin 2 → ℚ) ![3, -4] ![1, 1] none
      (1 / 2) 1 2 1 (1 / 2) (by norm_num)).2 0
    rw [h]
    norm_num [clippedGrad]⟩

/-- Claim C3: `adamUpdate` leaves `mean' = mean * beta1 + g * (1 - beta1)`,
`variance' = variance * beta2 + g * g * (1 - beta2)` and
`weight' = weight - learning_rate * mean' / (sqrt(variance') + eps)` element by element,
where `g = c + weight_decay * weight` has no learning-rate factor and `c` is the rescaled and
clipped input gradient; the weight update uses the updated `mean'` and `variance'`. -/
theorem adamUpdate_step (sqrt : α → α) (weight grad mean variance : Tensor ι α)
    (weightGrad : Option (Tensor ι α))
    (learning_rate weight_decay rescale_grad clip_grad beta1 beta2 eps : α) (i : ι) :
    let r := (adamUpdate sqrt ⟨weight, grad, mean, variance, weightGrad⟩
      learning_rate weight_decay rescale_grad clip_grad beta1 beta2 eps).buffers
    let g := clippedGrad rescale_grad clip_grad grad i + weight_decay * weight i
    r.mean i = mean i * beta1 + g * (1 - beta1) ∧
    r.variance i = variance i * beta2 + g * g * (1 - beta2) ∧
    r.weight i = weight i - learning_rate * r.mean i / (sqrt (r.variance i) + eps) := by
  simp only [adamUpdate, clipGrad_rescaleGrad, Tensor.add, Tensor.mul, Tensor.sub,
    Tensor.addcmul, Tensor.div, Tensor.sqrt, Tensor.addScalar]
  refine ⟨by ring, by ring, by ring⟩

/-- The gradient buffer `adamUpdate` leaves behind. -/
theorem adamUpdate_grad (sqrt : α → α) (b : AdamBuffers ι α)
    (learning_rate weight_decay rescale_grad clip_grad beta1 beta2 eps : α) :
    (adamUpdate sqrt b learning_rate weight_decay rescale_grad clip_grad beta1 beta2
        eps).buffers.grad
      = (clipGrad clip_grad (rescaleGrad rescale_grad b.grad)).add b.weight weight_decay :=
  rfl

/-- Claim C4, as stated, fails: with `beta1 == beta2 == 0`, weight `1`, input gradient `1`
and `weight_decay = 1` (no rescaling, no clipping), `adamUpdate` leaves `mean' = 2` and
`variance' = 4`, not the input gradient `1` and its square. -/
theorem adamUpdate_zero_betas_counterexample :
    let b : AdamBuffers (Fin 1) ℚ := ⟨![1], ![1], ![0], ![0], some ![0]⟩
    let r := (adamUpdate Rat.sqrt b 1 1 1 (-1) 0 0 1).buffers
    r.mean 0 = 2 ∧ r.variance 0 = 4 ∧
      r.mean 0 ≠ b.grad 0 ∧ r.variance 0 ≠ b.grad 0 * b.grad 0 := by
  norm_num [adamUpdate, rescaleGrad, clipGrad, Tensor.add, Tensor.mul, Tensor.addcmul]

/-- Claim C4, amended: with `beta1 == 0` and `beta2 == 0`, `adamUpdate` leaves `mean' == g`
and `variance' == g * g` element by element, whatever `mean` and `variance` held before,
where `g = c + weight_decay * weight` and `c` is the rescaled and clipped input gradient; `g` is
the input gradient when `rescale_grad == 1`, `clip_grad < 0` and `weight_decay == 0`. -/
theorem adamUpdate_zero_betas (sqrt : α → α) (weight grad mean variance : Tensor ι α)
    (weightGrad : Option (Tensor ι α))
    (learning_rate weight_decay rescale_grad clip_grad eps : α) (i : ι) :
    let r := (adamUpdate sqrt ⟨weight, grad, mean, variance, weightGrad⟩
      learning_rate weight_decay rescale_grad clip_grad 0 0 eps).buffers
    let g := clippedGrad rescale_grad clip_grad grad i + weight_decay * weight i
    r.mean i = g ∧ r.variance i = g * g ∧
    (rescale_grad = 1 → clip_grad < 0 → weight_decay = 0 →
      r.mean i = grad i ∧ r.variance i = grad i * grad i) := by
  simp only [adamUpdate, clipGrad_rescaleGrad, Tensor.add, Tensor.mul, Tensor.addcmul]
  refine ⟨by ring, by ring, ?_⟩
  intro hr hc hw
  subst hr hw
  simp [clippedGrad, not_le.mpr hc]

/-- Witness of `adamUpdate_zero_betas`: input gradient `3` with `rescale_grad = 1`,
`clip_grad = -1` and `weight_decay = 0` gives `mean' = 3` and `variance' = 9`, for the
previous `mean = 1` and `variance = 4`. -/
theorem adamUpdate_zero_betas_witness :
    (adamUpdate Rat.sqrt adamSample (1 / 2) 0 1 (-1) 0 0 1).buffers.mean 0 = 3 ∧
    (adamUpdate Rat.sqrt adamSample (1 / 2) 0 1 (-1) 0 0 1).buffers.variance 0 = 3 * 3 := by
  simpa [adamSample] using
    (adamUpdate_zero_betas Rat.sqrt (![1, 2] : Fin 2 → ℚ) ![3, -4] ![1, 1] ![4, 9]
      (some ![5, 5]) (1 / 2) 0 1 (-1) 1 0).2.2 rfl (by norm_num) rfl

/-- Claim C5: the clipping step of `sgdUpdate` and `adamUpdate`. When `clip_grad >= 0` every
element after the step lies in `[-|clip_grad|, |clip_grad|]` and every element already in that
interval is unchanged; when `clip_grad < 0` the step changes nothing. Both updates run this
step on the rescaled gradient before the weight-decay term is added. -/
theorem clipGrad_spec (clip_grad : α) (grad : Tensor ι α) :
    (0 ≤ clip_grad →
      (∀ i, -|clip_grad| ≤ clipGrad clip_grad grad i ∧ clipGrad clip_grad grad i ≤ |clip_grad|) ∧
      (∀ i, -|clip_grad| ≤ grad i → grad i ≤ |clip_grad| → clipGrad clip_grad grad i = grad i)) ∧
    (clip_grad < 0 → clipGrad clip_grad grad = grad) ∧
    (∀ (b : SgdBuffers ι α) (learning_rate weight_decay rescale_grad momentum : α),
      (sgdUpdate b learning_rate weight_decay rescale_grad clip_grad momentum).buffers.grad
        = ((clipGrad clip_grad (rescaleGrad rescale_grad b.grad)).add b.weight
            weight_decay).mul learning_rate) ∧
    (∀ (sqrt : α → α) (b : AdamBuffers ι α)
        (learning_rate weight_decay rescale_grad beta1 beta2 eps : α),
      (adamUpdate sqrt b learning_rate weight_decay rescale_grad clip_grad beta1 beta2
          eps).buffers.grad
        = (clipGrad clip_grad (rescaleGrad rescale_grad b.grad)).add b.weight weight_decay) := by
  refine ⟨fun h => ⟨fun i => ?_, fun i hlo hhi => ?_⟩, fun h => ?_, ?_, ?_⟩
  · have habs : -|clip_grad| ≤ |clip_grad| := (neg_nonpos.mpr (abs_nonneg _)).trans (abs_nonneg _)
    simp only [clipGrad, ge_iff_le, h, if_true, Tensor.clamp]
    exact ⟨le_min (le_max_right _ _) habs, min_le_right _ _⟩
  · simp only [clipGrad, ge_iff_le, h, if_true, Tensor.clamp]
    rw [max_eq_left hlo, min_eq_left hhi]
  · simp [clipGrad, not_le.mpr h]
  · intro b learning_rate weight_decay rescale_grad momentum
    exact sgdUpdate_grad b learning_rate weight_decay rescale_grad clip_grad momentum
  · intro sqrt b learning_rate weight_decay rescale_grad beta1 beta2 eps
    exact adamUpdate_grad sqrt b learning_rate weight_decay rescale_grad clip_grad beta1 beta2 eps

/-- Witness of `clipGrad_spec`: with `clip_grad = 1` the gradient `(3, -4)` is clamped to
`(1, -1)`. -/
theorem clipGrad_spec_witness :
    clipGrad (1 : ℚ) (![3, -4] : Fin 2 → ℚ) 0 = 1 ∧
    (-|(1 : ℚ)| ≤ clipGrad (1 : ℚ) (![3, -4] : Fin 2 → ℚ) 1 ∧
      clipGrad (1 : ℚ) (![3, -4] : Fin 2 → ℚ) 1 ≤ |(1 : ℚ)|) :=
  ⟨by norm_num [clipGrad, Tensor.clamp],
    ((clipGrad_spec (1 : ℚ) (![3, -4] : Fin 2 → ℚ)).1 (by norm_num)).1 1⟩

/-- The reset of the accumulator raises nothing exactly when the accumulator is defined, and
then leaves it all zero. -/
theorem resetGrad_cleared (weightGrad : Option (Tensor ι α)) :
    ((resetGrad weightGrad).2 = none ↔ weightGrad.isSome = true) ∧
    ((resetGrad weightGrad).2 = none →
      ∃ a : Tensor ι α, (resetGrad weightGrad).1 = some a ∧ ∀ i, a i = 0) := by
  cases weightGrad with
  | none => simp [resetGrad]
  | some g => exact ⟨by simp [resetGrad], fun _ => ⟨g.zero, rfl, fun _ => rfl⟩⟩

/-- Claim C6: after `sgdUpdate` returns and after `adamUpdate` returns, every element of the
gradient accumulator of the weight is zero, on the `momentum == 0` path and on the
`momentum != 0` path alike. The calls return (raise nothing) exactly when the accumulator is
defined and, for `sgdUpdate` with `momentum != 0`, the state handle is not null. -/
theorem weightGrad_cleared (sb : SgdBuffers ι α) (ab : AdamBuffers ι α) (sqrt : α → α)
    (learning_rate weight_decay rescale_grad clip_grad momentum beta1 beta2 eps : α) :
    let s := sgdUpdate sb learning_rate weight_decay rescale_grad clip_grad momentum
    let a := adamUpdate sqrt ab learning_rate weight_decay rescale_grad clip_grad beta1 beta2 eps
    (s.raised = none ↔
      sb.weightGrad.isSome = true ∧ (momentum = 0 ∨ sb.state.isSome = true)) ∧
    (s.raised = none → ∃ acc : Tensor ι α, s.buffers.weightGrad = some acc ∧ ∀ i, acc i = 0) ∧
    (a.raised = none ↔ ab.weightGrad.isSome = true) ∧
    (a.raised = none → ∃ acc : Tensor ι α, a.buffers.weightGrad = some acc ∧ ∀ i, acc i = 0) := by
  have h := resetGrad_cleared sb.weightGrad
  have h2 := resetGrad_cleared ab.weightGrad
  refine ⟨?_, ?_, h2.1, h2.2⟩
  · unfold sgdUpdate
    by_cases hm : momentum = 0
    · simpa [hm] using h.1
    · cases hs : sb.state with
      | none => simp [hm]
      | some st => simpa [hm] using h.1
  · unfold sgdUpdate
    by_cases hm : momentum = 0
    · simpa [hm] using h.2
    · cases hs : sb.state with
      | none => simp [hm]
      | some st => simpa [hm] using h.2

/-- Witness of `weightGrad_cleared`: on the sample inputs, whose accumulator is `(5, 5)`, both
calls return and leave an accumulator; with `momentum = 1/2` the momentum path is taken. -/
theorem weightGrad_cleared_witness :
    (sgdUpdate sgdSample (1 / 2) 1 2 1 (1 / 2)).raised = none ∧
    (adamUpdate Rat.sqrt adamSample (1 / 2) 1 2 1 (1 / 2) (1 / 2) 1).raised = none ∧
    (∃ acc : Tensor (Fin 2) ℚ,
      (sgdUpdate sgdSample (1 / 2) 1 2 1 (1 / 2)).buffers.weightGrad = some acc ∧
        ∀ i, acc i = 0) ∧
    (∃ acc : Tensor (Fin 2) ℚ,
      (adamUpdate Rat.sqrt adamSample (1 / 2) 1 2 1 (1 / 2) (1 / 2) 1).buffers.weightGrad
          = some acc ∧ ∀ i, acc i = 0) :=
  have h := weightGrad_cleared sgdSample adamSample Rat.sqrt (1 / 2) 1 2 1 (1 / 2) (1 / 2)
    (1 / 2) 1
  have hs : (sgdUpdate sgdSample (1 / 2) 1 2 1 (1 / 2)).raised = none :=
    h.1.mpr ⟨rfl, Or.inr rfl⟩
  have ha : (adamUpdate Rat.sqrt adamSample (1 / 2) 1 2 1 (1 / 2) (1 / 2) 1).raised = none :=
    h.2.2.1.mpr rfl
  ⟨hs, ha, h.2.1 hs, h.2.2.2 ha⟩

/-- Claim C9: with `momentum == 0`, `sgdUpdate` neither reads nor modifies the momentum state:
the state is unchanged after the call, and the weight, the gradient, the accumulator and the
error raised are the same for every value of the state handle, a null one included. -/
theorem sgdUpdate_momentum_zero_state (b : SgdBuffers ι α)
    (learning_rate weight_decay rescale_grad clip_grad : α) (state : Option (Tensor ι α)) :
    let r := sgdUpdate b learning_rate weight_decay rescale_grad clip_grad 0
    let r1 := sgdUpdate { b with state := state } learning_rate weight_decay rescale_grad
      clip_grad 0
    r.buffers.state = b.state ∧ r1.buffers.state = state ∧
    r1.buffers.weight = r.buffers.weight ∧ r1.buffers.grad = r.buffers.grad ∧
    r1.buffers.weightGrad = r.buffers.weightGrad ∧ r1.raised = r.raised := by
  simp [sgdUpdate]

/-- Claim C10: when every element of `variance` is non-negative and `0 <= beta2 <= 1`, every
element of the variance `adamUpdate` leaves is non-negative; for a square root kernel that is
non-negative on non-negative arguments and `eps > 0`, every element of the divisor
`sqrt(variance') + eps` of the weight update is strictly positive, hence not zero. -/
theorem adamUpdate_variance_nonneg (sqrt : α → α) (b : AdamBuffers ι α)
    (learning_rate weight_decay rescale_grad clip_grad beta1 beta2 eps : α)
    (hv : ∀ i, 0 ≤ b.variance i) (h0 : 0 ≤ beta2) (h1 : beta2 ≤ 1) :
    let r := (adamUpdate sqrt b learning_rate weight_decay rescale_grad clip_grad beta1 beta2
      eps).buffers
    (∀ i, 0 ≤ r.variance i) ∧
    ((∀ x, 0 ≤ x → 0 ≤ sqrt x) → 0 < eps →
      ∀ i, 0 < sqrt (r.variance i) + eps ∧ sqrt (r.variance i) + eps ≠ 0 ∧
        r.weight i = b.weight i - r.mean i * learning_rate / (sqrt (r.variance i) + eps)) := by
  intro r
  have hvar : ∀ i, 0 ≤ r.variance i := by
    intro i
    simp only [r, adamUpdate, Tensor.addcmul, Tensor.mul]
    have hg : 0 ≤ (1 - beta2) * (((clipGrad clip_grad (rescaleGrad rescale_grad b.grad)).add
        b.weight weight_decay) i * ((clipGrad clip_grad (rescaleGrad rescale_grad b.grad)).add
        b.weight weight_decay) i) :=
      mul_nonneg (sub_nonneg.mpr h1) (mul_self_nonneg _)
    have hb : 0 ≤ b.variance i * beta2 := mul_nonneg (hv i) h0
    rw [mul_assoc]
    exact add_nonneg hb hg
  refine ⟨hvar, fun hsqrt heps i => ?_⟩
  have hpos : 0 < sqrt (r.variance i) + eps := add_pos_of_nonneg_of_pos (hsqrt _ (hvar i)) heps
  refine ⟨hpos, ne_of_gt hpos, ?_⟩
  simp [r, adamUpdate, Tensor.sub, Tensor.div, Tensor.mul, Tensor.sqrt, Tensor.addScalar]

/-- Witness of `adamUpdate_variance_nonneg`: the sample input has variance `(4, 9)`; with
`beta2 = 1/2` and `eps = 1` the updated variance is non-negative and the divisor positive, for
the rational square root. -/
theorem adamUpdate_variance_nonneg_witness :
    (∀ i, 0 ≤ adamSample.variance i) ∧ (0 : ℚ) ≤ 1 / 2 ∧ (1 / 2 : ℚ) ≤ 1 ∧
    (∀ i, 0 ≤ (adamUpdate Rat.sqrt adamSample (1 / 2) 1 2 1 (1 / 2) (1 / 2)
      1).buffers.variance i) ∧
    (∀ i, 0 < Rat.sqrt ((adamUpdate Rat.sqrt adamSample (1 / 2) 1 2 1 (1 / 2) (1 / 2)
      1).buffers.variance i) + 1) :=
  have hv : ∀ i, 0 ≤ adamSample.variance i := by
    intro i
    fin_cases i <;> simp [adamSample]
  have h := adamUpdate_variance_nonneg Rat.sqrt adamSample (1 / 2) 1 2 1 (1 / 2) (1 / 2) 1 hv
    (by norm_num) (by norm_num)
  ⟨hv, by norm_num, by norm_num, h.1,
    fun i => (h.2 (fun x _ => Rat.sqrt_nonneg x) (by norm_num) i).1⟩

end TrainingTheorems

section CreationTheorems

/-- The tensor `torchFromBlob` returns. -/
theorem torchFromBlob_ok (env : Env) (jbuffer : DirectBuffer) (jshape : List Int)
    (jdtype jlayout : Int) (jdevice : List Int) (jrequired_grad : Bool) :
    ∃ t : TensorInfo,
      torchFromBlob env jbuffer jshape jdtype jlayout jdevice jrequired_grad = Except.ok t ∧
      t.sizes = jshape ∧
      t.dtype = (if jdtype ≠ 8 then env.GetScalarTypeFromDType jdtype else env.default_dtype) ∧
      t.layout = (if jlayout = 0 then Layout.Strided else Layout.Sparse) ∧
      t.requires_grad = jrequired_grad := by
  refine ⟨_, rfl, ?_⟩
  by_cases hd : jdtype = 8 <;> cases hc : (env.GetDeviceFromJDevice jdevice).is_cpu <;>
    simp [from_blob, TensorInfo.to, hd, hc]

/-- Claim C7, as stated, fails: for a buffer of capacity `1` and the shape `[2, 3]`, which
implies `6` elements (no element width makes `6` elements fill a capacity of `1`),
`torchFromBlob` does not fail with `InvalidArgument` but returns a tensor of shape `[2, 3]`. -/
theorem torchFromBlob_capacity_counterexample :
    numel [2, 3] = 6 ∧ sampleBuffer.capacity = 1 ∧
    (∀ width : Int, numel [2, 3] * width ≠ (sampleBuffer.capacity : Int)) ∧
    torchFromBlob sampleEnv sampleBuffer [2, 3] 0 0 [] false
      ≠ Except.error NativeError.InvalidArgument ∧
    torchFromBlob sampleEnv sampleBuffer [2, 3] 0 0 [] false
      = Except.ok
        { storage := Storage.external 4096, sizes := [2, 3], dtype := ScalarType.Float,
          layout := Layout.Strided, device := Device.cpu, requires_grad := false } := by
  have hok : torchFromBlob sampleEnv sampleBuffer [2, 3] 0 0 [] false
      = Except.ok
        { storage := Storage.external 4096, sizes := [2, 3], dtype := ScalarType.Float,
          layout := Layout.Strided, device := Device.cpu, requires_grad := false } := rfl
  refine ⟨by decide, rfl, ?_, ?_, hok⟩
  · intro width h
    have h6 : (6 : Int) * width = 1 := h
    omega
  · rw [hok]
    exact fun h => nomatch h

/-- Claim C7, amended: `torchFromBlob` does not compare the number of elements the shape
implies with the capacity of the buffer: its outcome is the same for every capacity of the
buffer, whether or not the capacity matches the shape. -/
theorem torchFromBlob_ignores_capacity (env : Env) (jbuffer : DirectBuffer)
    (jshape : List Int) (jdtype jlayout : Int) (jdevice : List Int) (jrequired_grad : Bool)
    (capacity : Nat) :
    torchFromBlob env { jbuffer with capacity := capacity } jshape jdtype jlayout jdevice
        jrequired_grad
      = torchFromBlob env jbuffer jshape jdtype jlayout jdevice jrequired_grad :=
  rfl

/-- Claim C8, as stated, fails: with the unknown dtype code `8` and a buffer declared with
element type `Int`, `torchFromBlob` builds a tensor of the default element type `Float`, not
of the element type of the buffer. -/
theorem torchFromBlob_unknown_dtype_counterexample :
    sampleBuffer.elementType = ScalarType.Int ∧
    ∃ t : TensorInfo,
      torchFromBlob sampleEnv sampleBuffer [1] 8 0 [] false = Except.ok t ∧
      t.dtype = ScalarType.Float ∧ t.dtype ≠ sampleBuffer.elementType := by
  refine ⟨rfl, _, rfl, ?_, ?_⟩ <;> decide

/-- Claim C8, amended: when the dtype code is not the unknown sentinel `8`, the tensor has the
element type the code denotes; when it is `8`, no element type is set and the tensor has the
default element type of the tensor library, whatever the element type of the buffer is. In
both cases layout code `0` selects the dense-strided layout and layout code `1` the sparse
layout. -/
theorem torchFromBlob_dtype_layout (env : Env) (jbuffer : DirectBuffer) (jshape : List Int)
    (jdtype jlayout : Int) (jdevice : List Int) (jrequired_grad : Bool) :
    ∃ t : TensorInfo,
      torchFromBlob env jbuffer jshape jdtype jlayout jdevice jrequired_grad = Except.ok t ∧
      (jdtype ≠ 8 → t.dtype = env.GetScalarTypeFromDType jdtype) ∧
      (jdtype = 8 → t.dtype = env.default_dtype ∧
        ∀ elementType : ScalarType,
          torchFromBlob env { jbuffer with elementType := elementType } jshape jdtype jlayout
            jdevice jrequired_grad = Except.ok t) ∧
      (jlayout = 0 → t.layout = Layout.Strided) ∧
      (jlayout = 1 → t.layout = Layout.Sparse) := by
  obtain ⟨t, ht, _, hd, hl, _⟩ :=
    torchFromBlob_ok env jbuffer jshape jdtype jlayout jdevice jrequired_grad
  refine ⟨t, ht, fun h => ?_, fun h => ⟨?_, fun _ => ht⟩, fun h => ?_, fun h => ?_⟩
  · rw [hd, if_pos h]
  · rw [hd, if_neg (not_not.mpr h)]
  · rw [hl, if_pos h]
  · rw [hl, if_neg (by omega)]

/-- Witness of `torchFromBlob_dtype_layout`: dtype code `4` and layout code `1` in the sample
environment give an `Int` tensor with the sparse layout. -/
theorem torchFromBlob_dtype_layout_witness :
    ∃ t : TensorInfo,
      torchFromBlob sampleEnv sampleBuffer [1] 4 1 [] true = Except.ok t ∧
      t.dtype = ScalarType.Int ∧ t.layout = Layout.Sparse := by
  obtain ⟨t, ht, hd, _, _, hl⟩ := torchFromBlob_dtype_layout sampleEnv sampleBuffer [1] 4 1 [] true
  exact ⟨t, ht, by simpa [sampleEnv] using hd (by decide), hl rfl⟩

/-- Witness of `torchFromBlob_ignores_capacity`: for the shape `[2, 3]` the sample buffer with
the matching capacity `6` and with its own capacity `1` gives the same outcome. -/
theorem torchFromBlob_ignores_capacity_witness :
    numel [2, 3] = 6 ∧ sampleBuffer.capacity = 1 ∧
    torchFromBlob sampleEnv { sampleBuffer with capacity := 6 } [2, 3] 0 0 [] false
      = torchFromBlob sampleEnv sampleBuffer [2, 3] 0 0 [] false :=
  ⟨by decide, rfl, torchFromBlob_ignores_capacity sampleEnv sampleBuffer [2, 3] 0 0 [] false 6⟩

end CreationTheorems

end DJL
